import Mathlib

/-!
Shallow embedding of `gridcells/analysis/bumps.py` (bump-tracking analysis).

Numeric values are modelled as exact rationals extended with the IEEE special
values `+inf`, `-inf` and `nan` (`Exv`), since the source relies on numpy's
propagation of these values (`np.inf`, division of zero by zero, comparisons
with `nan`).  Transcendental collaborators (`np.log`, `np.exp`, `np.pi`), the
external twisted-torus metric (`gridcells.core.common.twisted_torus_distance`)
and the external solver (`scipy.optimize.leastsq`) enter as parameters of a
`Ctx` record: every theorem below quantifies over them.
-/

namespace Bumps

/-- Extended numeric value: a rational, plus the IEEE special values. -/
inductive Exv where
  | fin (q : ℚ)
  | pinf
  | ninf
  | nan
deriving DecidableEq

namespace Exv

/-- IEEE negation. -/
def neg : Exv → Exv
  | fin q => fin (-q)
  | pinf => ninf
  | ninf => pinf
  | nan => nan

/-- IEEE absolute value (`np.abs`). -/
def eabs : Exv → Exv
  | fin q => fin |q|
  | pinf => pinf
  | ninf => pinf
  | nan => nan

/-- IEEE addition: `nan` propagates; opposite infinities give `nan`. -/
def add : Exv → Exv → Exv
  | nan, _ => nan
  | _, nan => nan
  | pinf, ninf => nan
  | ninf, pinf => nan
  | pinf, _ => pinf
  | _, pinf => pinf
  | ninf, _ => ninf
  | _, ninf => ninf
  | fin a, fin b => fin (a + b)

/-- IEEE multiplication: `nan` propagates; `0 * inf = nan`; sign rules. -/
def mul : Exv → Exv → Exv
  | nan, _ => nan
  | _, nan => nan
  | fin a, fin b => fin (a * b)
  | fin a, pinf => if a = 0 then nan else if 0 < a then pinf else ninf
  | fin a, ninf => if a = 0 then nan else if 0 < a then ninf else pinf
  | pinf, fin b => if b = 0 then nan else if 0 < b then pinf else ninf
  | ninf, fin b => if b = 0 then nan else if 0 < b then ninf else pinf
  | pinf, pinf => pinf
  | pinf, ninf => ninf
  | ninf, pinf => ninf
  | ninf, ninf => pinf

/-- IEEE subtraction, defined as addition of the negation. -/
def sub (a b : Exv) : Exv := add a (neg b)

/-- IEEE division: `nan` propagates; `x / 0` follows numpy (`0/0 = nan`,
`x/0 = ±inf` with a warning); `inf / inf = nan`; `x / inf = 0`. -/
def div : Exv → Exv → Exv
  | nan, _ => nan
  | _, nan => nan
  | fin a, fin b =>
      if b = 0 then (if a = 0 then nan else if 0 < a then pinf else ninf)
      else fin (a / b)
  | fin _, pinf => fin 0
  | fin _, ninf => fin 0
  | pinf, fin b => if 0 ≤ b then pinf else ninf
  | ninf, fin b => if 0 ≤ b then ninf else pinf
  | pinf, _ => nan
  | ninf, _ => nan

instance : Add Exv := ⟨Exv.add⟩
instance : Sub Exv := ⟨Exv.sub⟩
instance : Mul Exv := ⟨Exv.mul⟩
instance : Div Exv := ⟨Exv.div⟩
instance : Neg Exv := ⟨Exv.neg⟩

/-- Python `==` on floats: `nan` compares unequal to everything. -/
def eqv : Exv → Exv → Bool
  | fin a, fin b => a == b
  | pinf, pinf => true
  | ninf, ninf => true
  | _, _ => false

/-- Rational counterpart of Python float `%` with a positive divisor:
`a - w * floor (a / w)`, the representative in `[0, w)`. -/
def qmod (a w : ℚ) : ℚ := a - w * ⌊a / w⌋

/-- Python float `%`.  The source only ever uses a finite positive divisor (a
torus dimension); for a zero divisor CPython raises `ZeroDivisionError` and for
non-finite operands the result is `nan`, both folded to `nan` here (never
reached by the claims, whose snapshots have positive dimensions). -/
def pymod : Exv → Exv → Exv
  | fin a, fin w => if w = 0 then nan else fin (qmod a w)
  | _, _ => nan

end Exv

/-- Sum of a list of extended values, as `np.sum` (zero for the empty list). -/
def npsum (l : List Exv) : Exv := l.foldl Exv.add (Exv.fin 0)

/-- Translation of `np.mean`: sum divided by length.  On the empty list this is
`0 / 0 = nan`, matching numpy (which also emits a RuntimeWarning). -/
def npmean (l : List Exv) : Exv := npsum l / Exv.fin l.length

/-- Translation of `np.var` on real data: mean of the squared deviations from
the mean (population variance, divisor `n`). -/
def npvar (l : List Exv) : Exv :=
  npmean (l.map fun x => (x - npmean l) * (x - npmean l))

/-- Value stored in an `err2` attribute: a per-cell array, a numpy scalar
(produced by `np.sum`), or Python `None` (the ignored `err2` of an initial
guess). -/
inductive ErrV where
  | arr (l : List Exv)
  | scl (v : Exv)
  | none
deriving DecidableEq

/-- Translation of the assignment `fit_params.err2 = np.sum(fit_params.err2)`:
summing an array yields a numpy scalar, summing a scalar is the identity.
`np.sum(None)` raises in CPython; the fitters never store `None` in a result,
so that branch is never reached and is folded to `.none`. -/
def ErrV.npsumErr : ErrV → ErrV
  | arr l => scl (npsum l)
  | scl v => scl v
  | none => none

/-- Error kinds surfaced by the Python code (exception classes thrown, plus the
exceptions CPython itself raises on the defective lines). -/
inductive PyErr where
  | typeMismatch
  | inconsistentLengths
  | indexError
  | attributeError
deriving DecidableEq

/-- Classes declared in the module, for the dynamic `isinstance` checks. -/
inductive PyClass where
  | fittingParams
  | symmetricGaussianParams
  | mlFit
  | mlFitList
  | mlGaussianFit
  | mlGaussianFitList
deriving DecidableEq

/-- Method-resolution order of each class, read off the source's class
declarations (the `collections.Sequence` mixin and `object` carry no
`isinstance` target in this module and are omitted). -/
def PyClass.mro : PyClass → List PyClass
  | fittingParams => [fittingParams]
  | symmetricGaussianParams => [symmetricGaussianParams, fittingParams]
  | mlFit => [mlFit, fittingParams]
  | mlFitList => [mlFitList, mlFit, fittingParams]
  | mlGaussianFit => [mlGaussianFit, symmetricGaussianParams, fittingParams]
  | mlGaussianFitList =>
      [mlGaussianFitList, mlGaussianFit, symmetricGaussianParams,
       fittingParams]

/-- Python `isinstance(obj, target)` for an object of class `c`. -/
def isinstance (c target : PyClass) : Bool := c.mro.contains target

/-- Pair2D from `gridcells.core.common`: a plain (x, y) pair. -/
structure Pair2D (α : Type) where
  x : α
  y : α

/-- Value object built by `MLFit.__init__`, tagged with the dynamic class of
the instance the fields live on (a subclass instance carries its own tag). -/
structure MLFit where
  cls : PyClass
  mu : Exv
  sigma2 : Exv
  ln_lh : Exv
  err2 : ErrV
deriving DecidableEq

/-- Value object built by `MLGaussianFit.__init__` (via
`SymmetricGaussianParams.__init__`), tagged with its dynamic class. -/
structure MLGaussianFit where
  cls : PyClass
  A : Exv
  mu_x : Exv
  mu_y : Exv
  sigma : Exv
  err2 : ErrV
  ln_lh : Exv
  lh_precision : Exv
deriving DecidableEq

/-- Initial-guess record `SymmetricGaussianParams(amplitude, mu_x, mu_y, sigma,
err2)`. -/
structure SymmetricGaussianParams where
  A : Exv
  mu_x : Exv
  mu_y : Exv
  sigma : Exv
  err2 : ErrV
deriving DecidableEq

/-- Backing state of an `MLFitList`: five parallel growable arrays. -/
structure MLFitList where
  mu : List Exv
  sigma2 : List Exv
  ln_lh : List Exv
  err2 : List ErrV
  times : List ℚ
deriving DecidableEq

namespace MLFitList

/-- Translation of `MLFitList._consistent`. -/
def consistent (s : MLFitList) : Bool :=
  (s.mu.length == s.sigma2.length) && (s.mu.length == s.ln_lh.length) &&
  (s.mu.length == s.err2.length) && (s.mu.length == s.times.length)

/-- Translation of `MLFitList.__init__` with all five component arrays
supplied: store them, then check `_consistent` and raise on mismatch. -/
def init (mu sigma2 ln_lh : List Exv) (err2 : List ErrV) (times : List ℚ) :
    Except PyErr MLFitList :=
  let s : MLFitList := ⟨mu, sigma2, ln_lh, err2, times⟩
  if s.consistent then .ok s else .error .inconsistentLengths

/-- The state produced by `MLFitList()` (every default argument `None` becomes
a fresh empty list). -/
def empty : MLFitList := ⟨[], [], [], [], []⟩

/-- Translation of `MLFitList._append_data`: raise `TypeError` unless `d` is an
instance of `MLFit`, otherwise append every field and the timestamp in
lockstep. -/
def append_data (s : MLFitList) (d : MLFit) (t : ℚ) :
    Except PyErr MLFitList :=
  if isinstance d.cls .mlFit then
    .ok ⟨s.mu ++ [d.mu], s.sigma2 ++ [d.sigma2], s.ln_lh ++ [d.ln_lh],
         s.err2 ++ [d.err2], s.times ++ [t]⟩
  else .error .typeMismatch

end MLFitList

/-- Object returned by `MLFitList.__getitem__`: an `MLFit` whose `mu`,
`sigma2`, `ln_lh` attributes hold the key-indexed scalars but whose `err2`
attribute holds the ENTIRE `err2` backing array, exactly as the source
constructs it (`MLFit(self.mu[key], self.sigma2[key], self.ln_lh[key],
self.err2)`). -/
structure MLFitGot where
  mu : Exv
  sigma2 : Exv
  ln_lh : Exv
  err2 : List ErrV
deriving DecidableEq

/-- Translation of `MLFitList.__getitem__`: the indexed scalars for three
fields, the whole `err2` backing array, and the whole `times` array as the
second component of the returned pair.  Out-of-range keys raise `IndexError`
at the first subscript. -/
def MLFitList.getItem (s : MLFitList) (key : ℕ) :
    Except PyErr (MLFitGot × List ℚ) :=
  if key < s.mu.length && key < s.sigma2.length && key < s.ln_lh.length then
    .ok (⟨s.mu.getD key Exv.nan, s.sigma2.getD key Exv.nan,
          s.ln_lh.getD key Exv.nan, s.err2⟩, s.times)
  else .error .indexError

/-- Translation of `MLFitList.__len__`.  The source line is `return
len.self.mu`: an attribute access `self` on the builtin `len`, which raises
`AttributeError` unconditionally. -/
def MLFitList.pyLen (_s : MLFitList) : Except PyErr ℕ :=
  .error .attributeError

/-- Backing state of an `MLGaussianFitList`: eight parallel growable arrays. -/
structure MLGaussianFitList where
  A : List Exv
  mu_x : List Exv
  mu_y : List Exv
  sigma : List Exv
  err2 : List ErrV
  ln_lh : List Exv
  lh_precision : List Exv
  times : List ℚ
deriving DecidableEq

namespace MLGaussianFitList

/-- Translation of `MLGaussianFitList._consistent`. -/
def consistent (s : MLGaussianFitList) : Bool :=
  (s.A.length == s.mu_x.length) && (s.A.length == s.mu_y.length) &&
  (s.A.length == s.sigma.length) && (s.A.length == s.err2.length) &&
  (s.A.length == s.ln_lh.length) && (s.A.length == s.lh_precision.length) &&
  (s.A.length == s.times.length)

/-- Translation of `MLGaussianFitList.__init__` with all eight component
arrays supplied. -/
def init (A mu_x mu_y sigma : List Exv) (err2 : List ErrV)
    (ln_lh lh_precision : List Exv) (times : List ℚ) :
    Except PyErr MLGaussianFitList :=
  let s : MLGaussianFitList :=
    ⟨A, mu_x, mu_y, sigma, err2, ln_lh, lh_precision, times⟩
  if s.consistent then .ok s else .error .inconsistentLengths

/-- The state produced by `MLGaussianFitList()`. -/
def empty : MLGaussianFitList := ⟨[], [], [], [], [], [], [], []⟩

/-- Translation of `MLGaussianFitList._append_data`: raise `TypeError` unless
`d` is an instance of `MLGaussianFit`, otherwise append all eight components
in lockstep. -/
def append_data (s : MLGaussianFitList) (d : MLGaussianFit) (t : ℚ) :
    Except PyErr MLGaussianFitList :=
  if isinstance d.cls .mlGaussianFit then
    .ok ⟨s.A ++ [d.A], s.mu_x ++ [d.mu_x], s.mu_y ++ [d.mu_y],
         s.sigma ++ [d.sigma], s.err2 ++ [d.err2], s.ln_lh ++ [d.ln_lh],
         s.lh_precision ++ [d.lh_precision], s.times ++ [t]⟩
  else .error .typeMismatch

/-- Translation of `MLGaussianFitList.__len__`: `len(self.A)`. -/
def pyLen (s : MLGaussianFitList) : Except PyErr ℕ := .ok s.A.length

end MLGaussianFitList

/-- Translation of `MLGaussianFitList.__getitem__`.  The source builds
`MLGaussianFit(self.A[key], ..., self.err2[key], self.ln_lh,
self.lh_precision)` (the last two are whole arrays) and then evaluates
`self._times[key]` — but no attribute `_times` exists (the field is `times`),
so every in-range access raises `AttributeError`; an out-of-range key raises
`IndexError` first, at the subscripts. -/
def MLGaussianFitList.getItem (s : MLGaussianFitList) (key : ℕ) :
    Except PyErr (MLGaussianFit × ℚ) :=
  if key < s.A.length && key < s.mu_x.length && key < s.mu_y.length &&
     key < s.sigma.length && key < s.err2.length then
    .error .attributeError
  else .error .indexError

/-- Solver parameter vector `x` of `gaussian_diff` / `leastsq`: the source
indexes it as `x[0] = A`, `x[1] = mu_x`, `x[2] = mu_y`, `x[3] = sigma`. -/
structure XVec where
  x0 : Exv
  x1 : Exv
  x2 : Exv
  x3 : Exv
deriving DecidableEq

/-- External collaborators of the module, passed as parameters: numpy's
transcendentals and `np.pi`, the twisted-torus metric from
`gridcells.core.common` (not part of the analysed file), and
`scipy.optimize.leastsq`, which receives the residual function and the initial
vector and returns the estimated vector together with its integer status flag
`ier`. -/
structure Ctx where
  log : Exv → Exv
  exp : Exv → Exv
  pi : Exv
  dist : Pair2D Exv → Pair2D (List Exv) → Pair2D ℚ → List Exv
  leastsq : (XVec → List Exv) → XVec → XVec × ℤ

/-- A 2D snapshot, row-major: axis 0 (outer list) is Y, axis 1 is X. -/
abbrev Snap : Type := List (List ℚ)

/-- Width of a snapshot: `sig_f.shape[1]`, the row length. -/
def width (sig : Snap) : ℕ := (sig.headD []).length

/-- Height of a snapshot: `sig_f.shape[0]`, the number of rows. -/
def height (sig : Snap) : ℕ := sig.length

/-- Translation of `sig_f.ravel()`: row-major flattening. -/
def ravel (sig : Snap) : List Exv := sig.flatten.map Exv.fin

/-- The x coordinates of the flattened meshgrid `X.flatten()`:
`0, 1, ..., W-1` repeated for every row. -/
def meshX (W H : ℕ) : List Exv :=
  (List.range H).flatMap fun _ => (List.range W).map fun j => Exv.fin j

/-- The y coordinates of the flattened meshgrid `Y.flatten()`:
each row index repeated `W` times. -/
def meshY (W H : ℕ) : List Exv :=
  (List.range H).flatMap fun i => (List.range W).map fun _ => Exv.fin i

/-- Translation of the inner function `gaussian_diff` of `fit_gaussian_tt`:
`np.abs(x[0]) * np.exp(-dist ** 2 / 2. / x[3] ** 2) - f_flattened` with
`dist = twisted_torus_distance(Pair2D(x[1], x[2]), others, dim)`. -/
def gaussian_diff (c : Ctx) (sig : Snap) (x : XVec) : List Exv :=
  let dim : Pair2D ℚ := ⟨(width sig : ℚ), (height sig : ℚ)⟩
  let others : Pair2D (List Exv) :=
    ⟨meshX (width sig) (height sig), meshY (width sig) (height sig)⟩
  let d := c.dist ⟨x.x1, x.x2⟩ others dim
  List.zipWith
    (fun di fi => x.x0.eabs * c.exp (-(di * di) / Exv.fin 2 / (x.x3 * x.x3)) - fi)
    d (ravel sig)

/-- The initial vector `x0 = np.array([i.A, i.mu_x, i.mu_y, i.sigma])`. -/
def gaussX0 (i : SymmetricGaussianParams) : XVec := ⟨i.A, i.mu_x, i.mu_y, i.sigma⟩

/-- The call `scipy.optimize.leastsq(gaussian_diff, x0)`: estimated vector and
status flag. -/
def solverResult (c : Ctx) (sig : Snap) (i : SymmetricGaussianParams) :
    XVec × ℤ :=
  c.leastsq (gaussian_diff c sig) (gaussX0 i)

/-- Translation of `fit_gaussian_tt`: run the solver from the initial guess,
square the residuals at the optimum, wrap the fitted center modulo the torus
dimensions, and assemble the log-likelihood
`-beta/2 * sum(err2) + n/2 * log(beta) - n/2 * log(2*pi) - 5` with
`beta = 1 / mean(err2)`.  The status flag `ierr` is bound and then never
read, exactly as in the source. -/
def fit_gaussian_tt (c : Ctx) (sig : Snap) (i : SymmetricGaussianParams) :
    MLGaussianFit :=
  let xest := (solverResult c sig i).1
  let err2 : List Exv := (gaussian_diff c sig xest).map fun e => e * e
  let wrapped_x := xest.x1.pymod (Exv.fin (width sig))
  let wrapped_y := xest.x2.pymod (Exv.fin (height sig))
  let n : Exv := Exv.fin ((width sig : ℚ) * (height sig : ℚ))
  let beta := Exv.fin 1 / npmean err2
  let ln_lh :=
    -beta / Exv.fin 2 * npsum err2 +
      n / Exv.fin 2 * c.log beta -
      n / Exv.fin 2 * c.log (Exv.fin 2 * c.pi) -
      Exv.fin 5
  { cls := .mlGaussianFit, A := xest.x0, mu_x := wrapped_x, mu_y := wrapped_y,
    sigma := xest.x3, err2 := .arr err2, ln_lh := ln_lh, lh_precision := beta }

/-- Maximum of a list of rationals (the value `np.max` finds; `0` only for the
never-used empty case). -/
def listMax : List ℚ → ℚ
  | [] => 0
  | [a] => a
  | a :: b :: r => max a (listMax (b :: r))

/-- Translation of `np.argmax` on the flattened array: index of the FIRST
occurrence of the maximum value. -/
def npArgmax : List ℚ → ℕ
  | [] => 0
  | [_] => 0
  | a :: b :: r => if listMax (b :: r) > a then npArgmax (b :: r) + 1 else 0

/-- Initial guess built by `fit_gaussian_bump_tt`:
`np.unravel_index(np.argmax(sig), sig.shape)` gives `(mu0_y, mu0_x)`
row-major, `a0 = sig[mu0_y, mu0_x]` is the value there, and
`sigma0 = np.max(sig.shape) / 4.` with `sig.shape = (height, width)`. -/
def bumpGuess (sig : Snap) : SymmetricGaussianParams :=
  let idx := npArgmax sig.flatten
  let mu0_y := idx / width sig
  let mu0_x := idx % width sig
  let a0 : ℚ := (sig.getD mu0_y []).getD mu0_x 0
  let sigma0 : ℚ := ((max (height sig) (width sig) : ℕ) : ℚ) / 4
  ⟨Exv.fin a0, Exv.fin mu0_x, Exv.fin mu0_y, Exv.fin sigma0, ErrV.none⟩

/-- Translation of `fit_gaussian_bump_tt`: build the argmax-based initial
guess (its `err2` is `None`) and delegate to `fit_gaussian_tt`. -/
def fit_gaussian_bump_tt (c : Ctx) (sig : Snap) : MLGaussianFit :=
  fit_gaussian_tt c sig (bumpGuess sig)

/-- Translation of `fit_maximum_lh`: flatten, take `np.mean` and `np.var`
(population variance), store the squared deviations, and either short-circuit
`ln_lh` to `np.inf` when the variance is exactly zero or assemble
`-.5/sigma2 * sum((sig-mu)**2) - .5*n*log(sigma2) - .5*n*log(2*pi) - 2`. -/
def fit_maximum_lh (c : Ctx) (sig0 : Snap) : MLFit :=
  let sig : List Exv := sig0.flatten.map Exv.fin
  let mu := npmean sig
  let sigma2 := npvar sig
  let err2 := sig.map fun s => (s - mu) * (s - mu)
  let ln_lh :=
    if Exv.eqv sigma2 (Exv.fin 0) then Exv.pinf
    else
      let n : Exv := Exv.fin sig.length;
      -(Exv.fin (1/2)) / sigma2 * npsum (sig.map fun s => (s - mu) * (s - mu)) -
        Exv.fin (1/2) * n * c.log sigma2 -
        Exv.fin (1/2) * n * c.log (Exv.fin 2 * c.pi) -
        Exv.fin 2
  { cls := .mlFit, mu := mu, sigma2 := sigma2, ln_lh := ln_lh,
    err2 := .arr err2 }

/-- Translation of `SingleBumpPopulation._perform_fit` instantiated at
`list_cls = MLGaussianFitList`: iterate the windows in time order; for each
one apply the fitter, optionally collapse `err2` to its sum
(`full_err=False`), and append.  The sliding firing-rate service
(`slidingFiringRate`, in the external `spikes` module) is a collaborator: its
output enters as the `frames` list of (snapshot, window time) pairs. -/
def perform_fit_gauss (fitc : Snap → MLGaussianFit) (full_err : Bool) :
    List (Snap × ℚ) → MLGaussianFitList → Except PyErr MLGaussianFitList
  | [], res => .ok res
  | (f, t) :: rest, res =>
      let fit0 := fitc f
      let fit1 := if !full_err then { fit0 with err2 := fit0.err2.npsumErr }
                  else fit0
      match res.append_data fit1 t with
      | .error e => .error e
      | .ok res1 => perform_fit_gauss fitc full_err rest res1

/-- Translation of `SingleBumpPopulation._perform_fit` instantiated at
`list_cls = MLFitList`. -/
def perform_fit_ml (fitc : Snap → MLFit) (full_err : Bool) :
    List (Snap × ℚ) → MLFitList → Except PyErr MLFitList
  | [], res => .ok res
  | (f, t) :: rest, res =>
      let fit0 := fitc f
      let fit1 := if !full_err then { fit0 with err2 := fit0.err2.npsumErr }
                  else fit0
      match res.append_data fit1 t with
      | .error e => .error e
      | .ok res1 => perform_fit_ml fitc full_err rest res1

/-- Translation of `SingleBumpPopulation.bump_position`: `_perform_fit` with
`fit_gaussian_bump_tt` and a fresh `MLGaussianFitList`. -/
def bump_position (c : Ctx) (frames : List (Snap × ℚ)) (full_err : Bool) :
    Except PyErr MLGaussianFitList :=
  perform_fit_gauss (fit_gaussian_bump_tt c) full_err frames
    MLGaussianFitList.empty

/-- Translation of `SingleBumpPopulation.uniform_fit`: `_perform_fit` with
`fit_maximum_lh` and a fresh `MLFitList`. -/
def uniform_fit (c : Ctx) (frames : List (Snap × ℚ)) (full_err : Bool) :
    Except PyErr MLFitList :=
  perform_fit_ml (fit_maximum_lh c) full_err frames MLFitList.empty

/-- Concrete collaborator bundle used to evaluate the definitions on concrete
inputs: trivial transcendentals and a solver that echoes the initial guess
with the success flag `ier = 1`. -/
def ctx0 : Ctx where
  log := fun _ => Exv.fin 0
  exp := fun _ => Exv.fin 0
  pi := Exv.fin 3
  dist := fun _ _ _ => []
  leastsq := fun _ x0 => (x0, 1)

/-- Collaborator bundle whose solver reports NON-convergence: it returns the
initial guess with `ier = 5` (`scipy.optimize.leastsq` signals success only
with `ier` in 1..4). -/
def ctx5 : Ctx where
  log := fun _ => Exv.fin 0
  exp := fun _ => Exv.fin 0
  pi := Exv.fin 3
  dist := fun _ _ _ => []
  leastsq := fun _ x0 => (x0, 5)

/-- Concrete initial guess used by the concrete evaluations. -/
def i0 : SymmetricGaussianParams :=
  ⟨Exv.fin 1, Exv.fin (7/2), Exv.fin (-(5/4)), Exv.fin 1, ErrV.none⟩

/-- Sample mean, exactly as the specification words it: sum over `n`. -/
def specMean (l : List ℚ) : ℚ := l.sum / l.length

/-- Population variance, exactly as the specification words it: mean squared
deviation from the sample mean, divisor `n` (not `n - 1`). -/
def specPopVar (l : List ℚ) : ℚ :=
  (l.map fun x => (x - specMean l) * (x - specMean l)).sum / l.length

/-- Per-window record actually appended by `_perform_fit`: the fitter's output
with `err2` collapsed to its sum when `full_err` is false. -/
def fitAdjG (fitc : Snap → MLGaussianFit) (full_err : Bool) (f : Snap) :
    MLGaussianFit :=
  let fit0 := fitc f
  if !full_err then { fit0 with err2 := fit0.err2.npsumErr } else fit0

/-- Per-window record actually appended by `_perform_fit` (uniform case). -/
def fitAdjML (fitc : Snap → MLFit) (full_err : Bool) (f : Snap) : MLFit :=
  let fit0 := fitc f
  if !full_err then { fit0 with err2 := fit0.err2.npsumErr } else fit0

/-- Closed form of the state `perform_fit_gauss` reaches from `st`: every
backing array extended by one entry per window, in time order. -/
def buildG (fitc : Snap → MLGaussianFit) (full_err : Bool)
    (frames : List (Snap × ℚ)) (st : MLGaussianFitList) : MLGaussianFitList :=
  { A := st.A ++ frames.map fun ft => (fitAdjG fitc full_err ft.1).A
    mu_x := st.mu_x ++ frames.map fun ft => (fitAdjG fitc full_err ft.1).mu_x
    mu_y := st.mu_y ++ frames.map fun ft => (fitAdjG fitc full_err ft.1).mu_y
    sigma := st.sigma ++ frames.map fun ft => (fitAdjG fitc full_err ft.1).sigma
    err2 := st.err2 ++ frames.map fun ft => (fitAdjG fitc full_err ft.1).err2
    ln_lh := st.ln_lh ++ frames.map fun ft => (fitAdjG fitc full_err ft.1).ln_lh
    lh_precision :=
      st.lh_precision ++
        frames.map fun ft => (fitAdjG fitc full_err ft.1).lh_precision
    times := st.times ++ frames.map Prod.snd }

/-- Closed form of the state `perform_fit_ml` reaches from `st`. -/
def buildML (fitc : Snap → MLFit) (full_err : Bool)
    (frames : List (Snap × ℚ)) (st : MLFitList) : MLFitList :=
  { mu := st.mu ++ frames.map fun ft => (fitAdjML fitc full_err ft.1).mu
    sigma2 := st.sigma2 ++ frames.map fun ft => (fitAdjML fitc full_err ft.1).sigma2
    ln_lh := st.ln_lh ++ frames.map fun ft => (fitAdjML fitc full_err ft.1).ln_lh
    err2 := st.err2 ++ frames.map fun ft => (fitAdjML fitc full_err ft.1).err2
    times := st.times ++ frames.map Prod.snd }

/-- Concrete `MLFit` record (first appended record in the evaluations). -/
def r1 : MLFit :=
  ⟨.mlFit, Exv.fin 1, Exv.fin 2, Exv.fin 3, ErrV.arr [Exv.fin 4]⟩

/-- Concrete `MLFit` record (second appended record in the evaluations). -/
def r2 : MLFit :=
  ⟨.mlFit, Exv.fin 6, Exv.fin 7, Exv.fin 8, ErrV.arr [Exv.fin 9]⟩

/-- Concrete `MLGaussianFit` record used in the evaluations. -/
def g1 : MLGaussianFit :=
  ⟨.mlGaussianFit, Exv.fin 1, Exv.fin 2, Exv.fin 3, Exv.fin 4,
   ErrV.arr [Exv.fin 5], Exv.fin 6, Exv.fin 7⟩

/-- The duck-typed view of an `MLFitList` INSTANCE passed as the record `d` of
`_append_data`: only its dynamic class matters to the `isinstance` check. -/
def dListInstance : MLFit :=
  ⟨.mlFitList, Exv.fin 0, Exv.fin 0, Exv.fin 0, ErrV.arr []⟩

/-- State of the `MLFitList` after appending `r1` at time 5. -/
def mlS1 : MLFitList :=
  ⟨[r1.mu], [r1.sigma2], [r1.ln_lh], [r1.err2], [5]⟩

/-- State of the `MLFitList` after appending `r1` at time 5 and `r2` at 6. -/
def mlS2 : MLFitList :=
  ⟨[r1.mu, r2.mu], [r1.sigma2, r2.sigma2], [r1.ln_lh, r2.ln_lh],
   [r1.err2, r2.err2], [5, 6]⟩

/-- State of the `MLGaussianFitList` after appending `g1` at time 5. -/
def gS1 : MLGaussianFitList :=
  ⟨[g1.A], [g1.mu_x], [g1.mu_y], [g1.sigma], [g1.err2], [g1.ln_lh],
   [g1.lh_precision], [5]⟩

/-- The `MLFitList` built from five pre-supplied length-1 component arrays. -/
def mlCons1 : MLFitList :=
  ⟨[Exv.fin 1], [Exv.fin 2], [Exv.fin 3], [ErrV.scl (Exv.fin 4)], [5]⟩

/-- The `MLGaussianFitList` built from eight pre-supplied length-1 arrays. -/
def gCons1 : MLGaussianFitList :=
  ⟨[Exv.fin 1], [Exv.fin 2], [Exv.fin 3], [Exv.fin 4],
   [ErrV.scl (Exv.fin 0)], [Exv.fin 5], [Exv.fin 6], [7]⟩

@[simp] theorem Exv.fin_add_fin (a b : ℚ) :
    Exv.fin a + Exv.fin b = Exv.fin (a + b) := rfl

@[simp] theorem Exv.fin_mul_fin (a b : ℚ) :
    Exv.fin a * Exv.fin b = Exv.fin (a * b) := rfl

@[simp] theorem Exv.fin_sub_fin (a b : ℚ) :
    Exv.fin a - Exv.fin b = Exv.fin (a - b) := by
  show Exv.sub (Exv.fin a) (Exv.fin b) = Exv.fin (a - b)
  simp [Exv.sub, Exv.neg, Exv.add, sub_eq_add_neg]

@[simp] theorem Exv.neg_fin (a : ℚ) : -(Exv.fin a) = Exv.fin (-a) := rfl

theorem Exv.fin_div_fin (a b : ℚ) (h : b ≠ 0) :
    Exv.fin a / Exv.fin b = Exv.fin (a / b) := by
  show Exv.div (Exv.fin a) (Exv.fin b) = Exv.fin (a / b)
  simp [Exv.div, h]

@[simp] theorem Exv.nan_sub (x : Exv) : Exv.nan - x = Exv.nan := by
  show Exv.sub Exv.nan x = Exv.nan
  cases x <;> rfl

@[simp] theorem Exv.nan_mul (x : Exv) : Exv.nan * x = Exv.nan := by
  show Exv.mul Exv.nan x = Exv.nan
  cases x <;> rfl

@[simp] theorem Exv.mul_nan (x : Exv) : x * Exv.nan = Exv.nan := by
  show Exv.mul x Exv.nan = Exv.nan
  cases x <;> rfl

@[simp] theorem Exv.nan_div (x : Exv) : Exv.nan / x = Exv.nan := by
  show Exv.div Exv.nan x = Exv.nan
  cases x <;> rfl

@[simp] theorem Exv.div_nan (x : Exv) : x / Exv.nan = Exv.nan := by
  show Exv.div x Exv.nan = Exv.nan
  cases x <;> rfl

theorem npsum_foldl (l : List ℚ) (q : ℚ) :
    (l.map Exv.fin).foldl Exv.add (Exv.fin q) = Exv.fin (q + l.sum) := by
  induction l generalizing q with
  | nil => simp
  | cons a t ih =>
      show (t.map Exv.fin).foldl Exv.add (Exv.add (Exv.fin q) (Exv.fin a)) = _
      rw [show Exv.add (Exv.fin q) (Exv.fin a) = Exv.fin (q + a) from rfl, ih]
      simp [add_assoc]

/-- Evaluating `np.sum` over an array of finite values is the finite sum. -/
theorem npsum_map_fin (l : List ℚ) : npsum (l.map Exv.fin) = Exv.fin l.sum := by
  simpa using npsum_foldl l 0

/-- Evaluating `np.mean` over a non-empty array of finite values is the sample mean. -/
theorem npmean_map_fin (l : List ℚ) (h : l ≠ []) :
    npmean (l.map Exv.fin) = Exv.fin (specMean l) := by
  have hlen : (l.length : ℚ) ≠ 0 := by
    exact_mod_cast Nat.cast_ne_zero.mpr (List.length_pos.mpr h).ne'
  rw [npmean, List.length_map, npsum_map_fin, Exv.fin_div_fin _ _ hlen,
    specMean]

/-- Evaluating `np.var` over a non-empty array of finite values is the population
variance. -/
theorem npvar_map_fin (l : List ℚ) (h : l ≠ []) :
    npvar (l.map Exv.fin) = Exv.fin (specPopVar l) := by
  have hmap : (l.map Exv.fin).map
      (fun x => (x - npmean (l.map Exv.fin)) * (x - npmean (l.map Exv.fin))) =
      (l.map fun x => (x - specMean l) * (x - specMean l)).map Exv.fin := by
    rw [npmean_map_fin l h, List.map_map, List.map_map]
    refine List.map_congr_left fun x _ => ?_
    simp
  have hne : (l.map fun x => (x - specMean l) * (x - specMean l)) ≠ [] := by
    simpa using h
  rw [npvar, hmap, npmean_map_fin _ hne, specPopVar, specMean,
    List.length_map]

/-- The wrapped representative is non-negative and below the modulus. -/
theorem qmod_bounds (a w : ℚ) (hw : 0 < w) :
    0 ≤ Exv.qmod a w ∧ Exv.qmod a w < w := by
  have hw0 : w ≠ 0 := ne_of_gt hw
  have hfr : Exv.qmod a w = w * Int.fract (a / w) := by
    rw [Exv.qmod, Int.fract]
    field_simp
  constructor
  · rw [hfr]
    exact mul_nonneg hw.le (Int.fract_nonneg _)
  · rw [hfr]
    calc w * Int.fract (a / w) < w * 1 :=
          mul_lt_mul_of_pos_left (Int.fract_lt_one _) hw
    _ = w := mul_one w

/-- The `mu` computed by `fit_maximum_lh` on non-empty data is the sample
mean. -/
theorem fit_maximum_lh_mu (c : Ctx) (sig0 : Snap) (h : sig0.flatten ≠ []) :
    (fit_maximum_lh c sig0).mu = Exv.fin (specMean sig0.flatten) := by
  simp only [fit_maximum_lh]
  exact npmean_map_fin _ h

/-- The `sigma2` computed by `fit_maximum_lh` on non-empty data is the
population variance. -/
theorem fit_maximum_lh_sigma2 (c : Ctx) (sig0 : Snap) (h : sig0.flatten ≠ []) :
    (fit_maximum_lh c sig0).sigma2 = Exv.fin (specPopVar sig0.flatten) := by
  simp only [fit_maximum_lh]
  exact npvar_map_fin _ h

/-- The `err2` stored by `fit_maximum_lh` holds one squared deviation per
flattened sample. -/
theorem fit_maximum_lh_err2 (c : Ctx) (sig0 : Snap) (h : sig0.flatten ≠ []) :
    (fit_maximum_lh c sig0).err2 =
      ErrV.arr (sig0.flatten.map fun x =>
        Exv.fin ((x - specMean sig0.flatten) * (x - specMean sig0.flatten))) := by
  simp only [fit_maximum_lh, npmean_map_fin _ h]
  rw [List.map_map]
  refine congrArg ErrV.arr (List.map_congr_left fun x _ => ?_)
  simp

/-- When the population variance is exactly zero, `fit_maximum_lh` takes the
`np.inf` branch, for every logarithm collaborator. -/
theorem fit_maximum_lh_ln_lh_var_zero (c : Ctx) (sig0 : Snap)
    (h : sig0.flatten ≠ []) (hv : specPopVar sig0.flatten = 0) :
    (fit_maximum_lh c sig0).ln_lh = Exv.pinf := by
  have hv2 : npvar (sig0.flatten.map Exv.fin) = Exv.fin 0 := by
    rw [npvar_map_fin _ h, hv]
  simp only [fit_maximum_lh, hv2]
  simp [Exv.eqv]

/-- A non-empty constant list has population variance zero. -/
theorem specPopVar_const (l : List ℚ) (q : ℚ) (h : l ≠ [])
    (hc : ∀ x ∈ l, x = q) : specPopVar l = 0 := by
  have hlen : (l.length : ℚ) ≠ 0 := by
    exact_mod_cast Nat.cast_ne_zero.mpr (List.length_pos.mpr h).ne'
  have hm : specMean l = q := by
    have hrep : l = List.replicate l.length q := List.eq_replicate_of_mem hc
    rw [specMean]
    nth_rewrite 1 [hrep]
    rw [List.sum_replicate, nsmul_eq_mul]
    field_simp
  rw [specPopVar]
  simp only [hm]
  have hz : (l.map fun x => (x - q) * (x - q)).sum = 0 := by
    refine List.sum_eq_zero fun y hy => ?_
    obtain ⟨x, hx, rfl⟩ := List.mem_map.mp hy
    rw [hc x hx]
    ring
  rw [hz, zero_div]

/-- C5: on every non-empty input, `fit_maximum_lh` returns the sample mean,
the population variance (divisor `n`), and one squared deviation per flattened
sample in `err2`. -/
theorem claim_C5 (c : Ctx) (sig0 : Snap) (h : sig0.flatten ≠ []) :
    (fit_maximum_lh c sig0).mu = Exv.fin (specMean sig0.flatten) ∧
    (fit_maximum_lh c sig0).sigma2 = Exv.fin (specPopVar sig0.flatten) ∧
    (fit_maximum_lh c sig0).err2 =
      ErrV.arr (sig0.flatten.map fun x =>
        Exv.fin ((x - specMean sig0.flatten) * (x - specMean sig0.flatten))) :=
  ⟨fit_maximum_lh_mu c sig0 h, fit_maximum_lh_sigma2 c sig0 h,
   fit_maximum_lh_err2 c sig0 h⟩

/-- C5 witness: on `[1, 2, 3, 4, 5]` the fit returns `mu = 3` and
`sigma2 = 2`. -/
theorem claim_C5_witness :
    (([[1, 2, 3, 4, 5]] : Snap).flatten ≠ []) ∧
    (fit_maximum_lh ctx0 [[1, 2, 3, 4, 5]]).mu = Exv.fin 3 ∧
    (fit_maximum_lh ctx0 [[1, 2, 3, 4, 5]]).sigma2 = Exv.fin 2 := by
  have h := claim_C5 ctx0 [[1, 2, 3, 4, 5]] (by decide)
  refine ⟨by decide, ?_, ?_⟩
  · rw [h.1]
    norm_num [specMean]
  · rw [h.2.1]
    norm_num [specPopVar, specMean]

/-- C6: on a non-empty constant input, `fit_maximum_lh` returns variance
exactly zero and `ln_lh = +inf`, as a defined value, with no use of the
logarithm (the statement holds for EVERY `log` collaborator, including those
undefined at zero). -/
theorem claim_C6 (c : Ctx) (sig0 : Snap) (q : ℚ) (h : sig0.flatten ≠ [])
    (hc : ∀ x ∈ sig0.flatten, x = q) :
    (fit_maximum_lh c sig0).sigma2 = Exv.fin 0 ∧
    (fit_maximum_lh c sig0).ln_lh = Exv.pinf := by
  have hv := specPopVar_const _ q h hc
  refine ⟨?_, fit_maximum_lh_ln_lh_var_zero c sig0 h hv⟩
  rw [fit_maximum_lh_sigma2 c sig0 h, hv]

/-- C6 witness: a concrete constant snapshot. -/
theorem claim_C6_witness :
    (([[5, 5], [5, 5]] : Snap).flatten ≠ []) ∧
    (∀ x ∈ ([[5, 5], [5, 5]] : Snap).flatten, x = 5) ∧
    (fit_maximum_lh ctx0 [[5, 5], [5, 5]]).sigma2 = Exv.fin 0 ∧
    (fit_maximum_lh ctx0 [[5, 5], [5, 5]]).ln_lh = Exv.pinf := by
  have h := claim_C6 ctx0 [[5, 5], [5, 5]] 5 (by decide) (by decide)
  exact ⟨by decide, by decide, h.1, h.2⟩

/-- C4 (amended): `fit_maximum_lh` raises nothing on empty input: numpy's
mean and variance of the empty array are `nan`, the `nan` variance compares
unequal to zero, and a well-formed `MLFit` record with `nan` statistics and an
empty `err2` is returned. -/
theorem claim_C4 (c : Ctx) :
    fit_maximum_lh c [] =
      { cls := .mlFit, mu := Exv.nan, sigma2 := Exv.nan, ln_lh := Exv.nan,
        err2 := ErrV.arr [] } := by
  have h1 : npmean ([] : List Exv) = Exv.nan := rfl
  have h2 : npvar ([] : List Exv) = Exv.nan := rfl
  simp [fit_maximum_lh, h1, h2, Exv.eqv, npsum]

/-- C4 counterexample: at the concrete empty input, `fit_maximum_lh` returns
the `nan`-filled record instead of raising an empty-input error. -/
theorem claim_C4_counterexample :
    fit_maximum_lh ctx0 [] =
      { cls := .mlFit, mu := Exv.nan, sigma2 := Exv.nan, ln_lh := Exv.nan,
        err2 := ErrV.arr [] } := by
  decide

/-- C7: whatever finite center the solver returns (and whatever the initial
guess was), the stored `mu_x` and `mu_y` are the modulo-wrapped
representatives, lying in `[0, width)` and `[0, height)` respectively. -/
theorem claim_C7 (c : Ctx) (sig : Snap) (i : SymmetricGaussianParams)
    (qx qy : ℚ) (hW : 0 < width sig) (hH : 0 < height sig)
    (hx : (solverResult c sig i).1.x1 = Exv.fin qx)
    (hy : (solverResult c sig i).1.x2 = Exv.fin qy) :
    (fit_gaussian_tt c sig i).mu_x = Exv.fin (Exv.qmod qx (width sig)) ∧
    0 ≤ Exv.qmod qx (width sig) ∧
    Exv.qmod qx (width sig) < (width sig : ℚ) ∧
    (fit_gaussian_tt c sig i).mu_y = Exv.fin (Exv.qmod qy (height sig)) ∧
    0 ≤ Exv.qmod qy (height sig) ∧
    Exv.qmod qy (height sig) < (height sig : ℚ) := by
  have hWq : (0 : ℚ) < (width sig : ℚ) := by exact_mod_cast hW
  have hHq : (0 : ℚ) < (height sig : ℚ) := by exact_mod_cast hH
  have hbx := qmod_bounds qx _ hWq
  have hby := qmod_bounds qy _ hHq
  have hmux : (fit_gaussian_tt c sig i).mu_x =
      ((solverResult c sig i).1.x1).pymod (Exv.fin (width sig)) := rfl
  have hmuy : (fit_gaussian_tt c sig i).mu_y =
      ((solverResult c sig i).1.x2).pymod (Exv.fin (height sig)) := rfl
  rw [hx] at hmux
  rw [hy] at hmuy
  rw [Exv.pymod] at hmux hmuy
  rw [if_neg (ne_of_gt hWq)] at hmux
  rw [if_neg (ne_of_gt hHq)] at hmuy
  exact ⟨hmux, hbx.1, hbx.2, hmuy, hby.1, hby.2⟩

/-- C7 witness: a concrete run whose echoed initial center lies outside the
torus on both axes; the stored center is wrapped into range. -/
theorem claim_C7_witness :
    0 < width ([[1]] : Snap) ∧ 0 < height ([[1]] : Snap) ∧
    ((fit_gaussian_tt ctx0 ([[1]] : Snap) i0).mu_x =
       Exv.fin (Exv.qmod (7 / 2) (width ([[1]] : Snap))) ∧
     0 ≤ Exv.qmod (7 / 2) (width ([[1]] : Snap)) ∧
     Exv.qmod (7 / 2) (width ([[1]] : Snap)) < (width ([[1]] : Snap) : ℚ) ∧
     (fit_gaussian_tt ctx0 ([[1]] : Snap) i0).mu_y =
       Exv.fin (Exv.qmod (-(5 / 4)) (height ([[1]] : Snap))) ∧
     0 ≤ Exv.qmod (-(5 / 4)) (height ([[1]] : Snap)) ∧
     Exv.qmod (-(5 / 4)) (height ([[1]] : Snap)) < (height ([[1]] : Snap) : ℚ)) :=
  ⟨by decide, by decide,
   claim_C7 ctx0 ([[1]] : Snap) i0 (7 / 2) (-(5 / 4)) (by decide) (by decide)
     rfl rfl⟩

/-- C3 (amended): `fit_gaussian_tt` binds the solver's status flag and never
reads it; replacing the flag by an arbitrary value changes nothing in the
returned record, so non-convergence is NOT surfaced. -/
theorem claim_C3 (c : Ctx) (sig : Snap) (i : SymmetricGaussianParams)
    (flag : ℤ) :
    fit_gaussian_tt
        { c with leastsq := fun f x0 => ((c.leastsq f x0).1, flag) } sig i =
      fit_gaussian_tt c sig i := rfl

/-- C3 counterexample: with a solver that reports non-convergence (`ier = 5`,
outside scipy's success range 1..4) the function still returns an
`MLGaussianFit` record assembled from the solver's returned (non-converged)
parameters instead of any failure signal. -/
theorem claim_C3_counterexample :
    (solverResult ctx5 ([[1]] : Snap) i0).2 = 5 ∧
    (fit_gaussian_tt ctx5 ([[1]] : Snap) i0).cls = PyClass.mlGaussianFit ∧
    (fit_gaussian_tt ctx5 ([[1]] : Snap) i0).A = i0.A ∧
    (fit_gaussian_tt ctx5 ([[1]] : Snap) i0).sigma = i0.sigma :=
  ⟨rfl, rfl, rfl, rfl⟩

/-- Every element is bounded by `listMax`. -/
theorem listMax_ge (l : List ℚ) : ∀ x ∈ l, x ≤ listMax l := by
  induction l with
  | nil => intro x hx; cases hx
  | cons a t ih =>
      intro x hx
      cases t with
      | nil =>
          rcases List.mem_singleton.mp hx with rfl
          exact le_of_eq rfl
      | cons b r =>
          rcases List.mem_cons.mp hx with rfl | hmem
          · exact le_max_left _ _
          · exact le_trans (ih x hmem) (le_max_right _ _)

/-- Semantics of `np.argmax`: the index is in range, the value there is the
maximum, and every strictly earlier value is strictly below the maximum
(first occurrence on ties). -/
theorem npArgmax_spec (l : List ℚ) (h : l ≠ []) :
    npArgmax l < l.length ∧
    l.getD (npArgmax l) 0 = listMax l ∧
    ∀ j < npArgmax l, l.getD j 0 < listMax l := by
  induction l with
  | nil => exact absurd rfl h
  | cons a t ih =>
      cases t with
      | nil =>
          refine ⟨by simp [npArgmax], by simp [npArgmax, listMax], ?_⟩
          intro j hj
          simp [npArgmax] at hj
      | cons b r =>
          obtain ⟨ih1, ih2, ih3⟩ := ih (by simp)
          by_cases hgt : listMax (b :: r) > a
          · have hidx : npArgmax (a :: b :: r) = npArgmax (b :: r) + 1 := by
              simp [npArgmax, hgt]
            have hmax : listMax (a :: b :: r) = listMax (b :: r) := by
              simp [listMax, max_eq_right (le_of_lt hgt)]
            refine ⟨?_, ?_, ?_⟩
            · rw [hidx]
              simpa using Nat.succ_lt_succ ih1
            · rw [hidx, hmax]
              simpa using ih2
            · intro j hj
              rw [hidx] at hj
              rw [hmax]
              cases j with
              | zero => simpa using hgt
              | succ j1 =>
                  have hj1 : j1 < npArgmax (b :: r) := Nat.lt_of_succ_lt_succ hj
                  simpa using ih3 j1 hj1
          · have hle : listMax (b :: r) ≤ a := le_of_not_lt hgt
            have hidx : npArgmax (a :: b :: r) = 0 := by
              simp [npArgmax, hgt]
            have hmax : listMax (a :: b :: r) = a := by
              simp [listMax, max_eq_left hle]
            refine ⟨by rw [hidx]; simp, by rw [hidx, hmax]; simp, ?_⟩
            intro j hj
            rw [hidx] at hj
            exact absurd hj (Nat.not_lt_zero j)

/-- Length of the row-major flattening of a rectangular 2D list. -/
theorem flatten_length_rect (sig : List (List ℚ)) (W : ℕ)
    (hrect : ∀ row ∈ sig, row.length = W) :
    sig.flatten.length = sig.length * W := by
  induction sig with
  | nil => simp
  | cons row rest ih =>
      have hrow : row.length = W := hrect row (by simp)
      have hrest : ∀ r ∈ rest, r.length = W := fun r hr =>
        hrect r (List.mem_cons_of_mem row hr)
      simp [List.flatten_cons, hrow, ih hrest, Nat.succ_mul, Nat.add_comm]

/-- Row-major indexing into the flattening of a rectangular 2D list. -/
theorem flatten_getD_rect (sig : List (List ℚ)) (W : ℕ)
    (hrect : ∀ row ∈ sig, row.length = W) (i j : ℕ) (hi : i < sig.length)
    (hj : j < W) :
    sig.flatten.getD (i * W + j) 0 = (sig.getD i []).getD j 0 := by
  induction sig generalizing i with
  | nil => cases hi
  | cons row rest ih =>
      have hrow : row.length = W := hrect row (by simp)
      have hrest : ∀ r ∈ rest, r.length = W := fun r hr =>
        hrect r (List.mem_cons_of_mem row hr)
      cases i with
      | zero =>
          simp only [List.flatten_cons, Nat.zero_mul, Nat.zero_add]
          rw [List.getD_append]
          · simp
          · rw [hrow]
            exact hj
      | succ i1 =>
          have hsplit : (i1 + 1) * W + j = row.length + (i1 * W + j) := by
            rw [hrow]
            ring
          have hi1 : i1 < rest.length := Nat.lt_of_succ_lt_succ hi
          simp only [List.flatten_cons, hsplit]
          rw [List.getD_append_right row rest.flatten 0 _ (Nat.le_add_right _ _),
            Nat.add_sub_cancel_left, List.getD_cons_succ]
          exact ih hrest i1 hi1

/-- A rectangular 2D list with a non-empty flattening has positive width. -/
theorem width_pos_of_flatten_ne_nil (sig : Snap) (hne : sig.flatten ≠ [])
    (hrect : ∀ row ∈ sig, row.length = width sig) : 0 < width sig := by
  by_contra h0
  have hw : width sig = 0 := Nat.eq_zero_of_not_pos h0
  have hlen := flatten_length_rect sig (width sig) hrect
  rw [hw, Nat.mul_zero] at hlen
  exact hne (List.eq_nil_of_length_eq_zero hlen)

/-- C8: `fit_gaussian_bump_tt` delegates to `fit_gaussian_tt` with exactly the
argmax-based guess: amplitude = the first-occurrence global maximum of the
row-major flattening, center = its (x, y) cell index by row-major unravelling,
`sigma0 = max(height, width) / 4`, `err2 = None` — and the delegate ignores
the guess's `err2` entirely. -/
theorem claim_C8 (c : Ctx) (sig : Snap) (hne : sig.flatten ≠ [])
    (hrect : ∀ row ∈ sig, row.length = width sig) :
    fit_gaussian_bump_tt c sig = fit_gaussian_tt c sig (bumpGuess sig) ∧
    (bumpGuess sig).A =
      Exv.fin (sig.flatten.getD (npArgmax sig.flatten) 0) ∧
    (bumpGuess sig).mu_x =
      Exv.fin ((npArgmax sig.flatten % width sig : ℕ) : ℚ) ∧
    (bumpGuess sig).mu_y =
      Exv.fin ((npArgmax sig.flatten / width sig : ℕ) : ℚ) ∧
    (bumpGuess sig).sigma =
      Exv.fin (((max (height sig) (width sig) : ℕ) : ℚ) / 4) ∧
    (bumpGuess sig).err2 = ErrV.none ∧
    sig.flatten.getD (npArgmax sig.flatten) 0 = listMax sig.flatten ∧
    (∀ x ∈ sig.flatten, x ≤ listMax sig.flatten) ∧
    (∀ j < npArgmax sig.flatten, sig.flatten.getD j 0 < listMax sig.flatten) ∧
    (∀ e : ErrV,
      fit_gaussian_tt c sig { bumpGuess sig with err2 := e } =
        fit_gaussian_bump_tt c sig) := by
  obtain ⟨hlt, hval, hfirst⟩ := npArgmax_spec sig.flatten hne
  have hW : 0 < width sig := width_pos_of_flatten_ne_nil sig hne hrect
  have hA : (bumpGuess sig).A =
      Exv.fin (sig.flatten.getD (npArgmax sig.flatten) 0) := by
    have hidx : npArgmax sig.flatten < sig.length * width sig := by
      rw [← flatten_length_rect sig (width sig) hrect]
      exact hlt
    have hi : npArgmax sig.flatten / width sig < sig.length :=
      Nat.div_lt_of_lt_mul (by rw [Nat.mul_comm]; exact hidx)
    have hj : npArgmax sig.flatten % width sig < width sig :=
      Nat.mod_lt _ hW
    have hsplit : (npArgmax sig.flatten / width sig) * width sig +
        npArgmax sig.flatten % width sig = npArgmax sig.flatten := by
      rw [Nat.mul_comm]
      exact Nat.div_add_mod _ _
    have hflat := flatten_getD_rect sig (width sig) hrect
      (npArgmax sig.flatten / width sig) (npArgmax sig.flatten % width sig)
      hi hj
    rw [hsplit] at hflat
    show Exv.fin ((sig.getD (npArgmax sig.flatten / width sig) []).getD
      (npArgmax sig.flatten % width sig) 0) = _
    rw [← hflat]
  exact ⟨rfl, hA, rfl, rfl, rfl, rfl, hval, listMax_ge sig.flatten, hfirst,
    fun e => rfl⟩

/-- C8 witness: on a concrete snapshot with a tie for the maximum, the guess
uses the first row-major occurrence (flat index 1: `mu0_x = 1`, `mu0_y = 0`,
amplitude 3, `sigma0 = max(2,2)/4 = 1/2`) and delegation holds. -/
theorem claim_C8_witness :
    (([[1, 3], [3, 0]] : Snap).flatten ≠ []) ∧
    (∀ row ∈ ([[1, 3], [3, 0]] : Snap),
      row.length = width ([[1, 3], [3, 0]] : Snap)) ∧
    fit_gaussian_bump_tt ctx0 ([[1, 3], [3, 0]] : Snap) =
      fit_gaussian_tt ctx0 ([[1, 3], [3, 0]] : Snap)
        (bumpGuess ([[1, 3], [3, 0]] : Snap)) ∧
    (bumpGuess ([[1, 3], [3, 0]] : Snap)).A = Exv.fin 3 ∧
    (bumpGuess ([[1, 3], [3, 0]] : Snap)).mu_x = Exv.fin 1 ∧
    (bumpGuess ([[1, 3], [3, 0]] : Snap)).mu_y = Exv.fin 0 := by
  have h := claim_C8 ctx0 ([[1, 3], [3, 0]] : Snap) (by decide) (by decide)
  refine ⟨by decide, by decide, h.1, ?_, ?_, ?_⟩
  · rw [h.2.1]
    norm_num [npArgmax, listMax]
  · rw [h.2.2.1]
    norm_num [npArgmax, listMax, width]
  · rw [h.2.2.2.1]
    norm_num [npArgmax, listMax, width]

/-- A record update of `err2` keeps the dynamic class tag (the `isinstance`
check sees the adjusted record just like the original). -/
theorem fitAdjG_cls (fitc : Snap → MLGaussianFit) (fe : Bool) (f : Snap) :
    (fitAdjG fitc fe f).cls = (fitc f).cls := by
  cases fe <;> rfl

/-- Characterization of `_perform_fit` (Gaussian list): when every fitted
record passes the `isinstance` check, the loop never fails and produces the
lockstep-extended state. -/
theorem perform_fit_gauss_eq (fitc : Snap → MLGaussianFit) (fe : Bool)
    (frames : List (Snap × ℚ)) (st : MLGaussianFitList)
    (h : ∀ f : Snap, isinstance (fitc f).cls .mlGaussianFit = true) :
    perform_fit_gauss fitc fe frames st = .ok (buildG fitc fe frames st) := by
  induction frames generalizing st with
  | nil => simp [perform_fit_gauss, buildG]
  | cons ft rest ih =>
      obtain ⟨f, t⟩ := ft
      have hcls : isinstance (fitAdjG fitc fe f).cls .mlGaussianFit = true := by
        rw [fitAdjG_cls]
        exact h f
      have hstep : perform_fit_gauss fitc fe ((f, t) :: rest) st =
          match st.append_data (fitAdjG fitc fe f) t with
          | .error e => .error e
          | .ok res1 => perform_fit_gauss fitc fe rest res1 := rfl
      have happ : st.append_data (fitAdjG fitc fe f) t =
          .ok ⟨st.A ++ [(fitAdjG fitc fe f).A],
               st.mu_x ++ [(fitAdjG fitc fe f).mu_x],
               st.mu_y ++ [(fitAdjG fitc fe f).mu_y],
               st.sigma ++ [(fitAdjG fitc fe f).sigma],
               st.err2 ++ [(fitAdjG fitc fe f).err2],
               st.ln_lh ++ [(fitAdjG fitc fe f).ln_lh],
               st.lh_precision ++ [(fitAdjG fitc fe f).lh_precision],
               st.times ++ [t]⟩ := by
        simp [MLGaussianFitList.append_data, hcls]
      rw [hstep, happ]
      show perform_fit_gauss fitc fe rest _ = _
      rw [ih]
      refine congrArg Except.ok ?_
      simp [buildG, List.append_assoc]

/-- Same as `fitAdjG_cls` for the uniform list. -/
theorem fitAdjML_cls (fitc : Snap → MLFit) (fe : Bool) (f : Snap) :
    (fitAdjML fitc fe f).cls = (fitc f).cls := by
  cases fe <;> rfl

/-- Characterization of `_perform_fit` (uniform list). -/
theorem perform_fit_ml_eq (fitc : Snap → MLFit) (fe : Bool)
    (frames : List (Snap × ℚ)) (st : MLFitList)
    (h : ∀ f : Snap, isinstance (fitc f).cls .mlFit = true) :
    perform_fit_ml fitc fe frames st = .ok (buildML fitc fe frames st) := by
  induction frames generalizing st with
  | nil => simp [perform_fit_ml, buildML]
  | cons ft rest ih =>
      obtain ⟨f, t⟩ := ft
      have hcls : isinstance (fitAdjML fitc fe f).cls .mlFit = true := by
        rw [fitAdjML_cls]
        exact h f
      have hstep : perform_fit_ml fitc fe ((f, t) :: rest) st =
          match st.append_data (fitAdjML fitc fe f) t with
          | .error e => .error e
          | .ok res1 => perform_fit_ml fitc fe rest res1 := rfl
      have happ : st.append_data (fitAdjML fitc fe f) t =
          .ok ⟨st.mu ++ [(fitAdjML fitc fe f).mu],
               st.sigma2 ++ [(fitAdjML fitc fe f).sigma2],
               st.ln_lh ++ [(fitAdjML fitc fe f).ln_lh],
               st.err2 ++ [(fitAdjML fitc fe f).err2],
               st.times ++ [t]⟩ := by
        simp [MLFitList.append_data, hcls]
      rw [hstep, happ]
      show perform_fit_ml fitc fe rest _ = _
      rw [ih]
      refine congrArg Except.ok ?_
      simp [buildML, List.append_assoc]

/-- C9: both orchestration entry points succeed on every window sequence; with
`full_err = true` the per-cell `err2` of every window's fit is appended
unchanged and in order; with `full_err = false` only its scalar sum is
appended; every other field (and the timestamps) is identical between the two
runs. -/
theorem claim_C9 (c : Ctx) (frames : List (Snap × ℚ)) :
    ∃ (gt gf : MLGaussianFitList) (ut uf : MLFitList),
      bump_position c frames true = .ok gt ∧
      bump_position c frames false = .ok gf ∧
      gt.err2 = frames.map (fun ft => (fit_gaussian_bump_tt c ft.1).err2) ∧
      gf.err2 = gt.err2.map ErrV.npsumErr ∧
      gf.A = gt.A ∧ gf.mu_x = gt.mu_x ∧ gf.mu_y = gt.mu_y ∧
      gf.sigma = gt.sigma ∧ gf.ln_lh = gt.ln_lh ∧
      gf.lh_precision = gt.lh_precision ∧ gf.times = gt.times ∧
      gt.times = frames.map Prod.snd ∧
      uniform_fit c frames true = .ok ut ∧
      uniform_fit c frames false = .ok uf ∧
      ut.err2 = frames.map (fun ft => (fit_maximum_lh c ft.1).err2) ∧
      uf.err2 = ut.err2.map ErrV.npsumErr ∧
      uf.mu = ut.mu ∧ uf.sigma2 = ut.sigma2 ∧ uf.ln_lh = ut.ln_lh ∧
      uf.times = ut.times ∧ ut.times = frames.map Prod.snd := by
  have hg : ∀ f : Snap,
      isinstance (fit_gaussian_bump_tt c f).cls .mlGaussianFit = true :=
    fun f => rfl
  have hm : ∀ f : Snap, isinstance (fit_maximum_lh c f).cls .mlFit = true :=
    fun f => rfl
  refine ⟨buildG (fit_gaussian_bump_tt c) true frames .empty,
    buildG (fit_gaussian_bump_tt c) false frames .empty,
    buildML (fit_maximum_lh c) true frames .empty,
    buildML (fit_maximum_lh c) false frames .empty,
    perform_fit_gauss_eq _ _ _ _ hg, perform_fit_gauss_eq _ _ _ _ hg,
    ?_, ?_, ?_, ?_, ?_, ?_, ?_, ?_, ?_, ?_,
    perform_fit_ml_eq _ _ _ _ hm, perform_fit_ml_eq _ _ _ _ hm,
    ?_, ?_, ?_, ?_, ?_, ?_, ?_⟩ <;>
    simp [buildG, buildML, fitAdjG, fitAdjML, MLGaussianFitList.empty,
      MLFitList.empty, List.map_map, Function.comp_def]

/-- C10: `_append_data` raises the type error exactly when the argument's
dynamic class is not an instance of the expected single-record class, and
appends in lockstep otherwise; the subclass relation makes a list container
itself (`MLFitList` is a subclass of `MLFit`, `MLGaussianFitList` of
`MLGaussianFit`) pass the check. -/
theorem claim_C10 :
    (∀ (st : MLFitList) (d : MLFit) (t : ℚ),
      (st.append_data d t = .error .typeMismatch ↔
        isinstance d.cls .mlFit = false) ∧
      (isinstance d.cls .mlFit = true →
        st.append_data d t =
          .ok ⟨st.mu ++ [d.mu], st.sigma2 ++ [d.sigma2],
               st.ln_lh ++ [d.ln_lh], st.err2 ++ [d.err2],
               st.times ++ [t]⟩)) ∧
    (∀ (st : MLGaussianFitList) (d : MLGaussianFit) (t : ℚ),
      (st.append_data d t = .error .typeMismatch ↔
        isinstance d.cls .mlGaussianFit = false) ∧
      (isinstance d.cls .mlGaussianFit = true →
        st.append_data d t =
          .ok ⟨st.A ++ [d.A], st.mu_x ++ [d.mu_x], st.mu_y ++ [d.mu_y],
               st.sigma ++ [d.sigma], st.err2 ++ [d.err2],
               st.ln_lh ++ [d.ln_lh], st.lh_precision ++ [d.lh_precision],
               st.times ++ [t]⟩)) ∧
    isinstance .mlFitList .mlFit = true ∧
    isinstance .mlGaussianFitList .mlGaussianFit = true ∧
    isinstance .mlGaussianFit .mlFit = false ∧
    isinstance .mlFit .mlGaussianFit = false := by
  refine ⟨fun st d t => ⟨?_, fun hc => ?_⟩, fun st d t => ⟨?_, fun hc => ?_⟩,
    by decide, by decide, by decide, by decide⟩
  · by_cases hc : isinstance d.cls .mlFit = true
    · simp [MLFitList.append_data, hc]
    · rw [Bool.not_eq_true] at hc
      simp [MLFitList.append_data, hc]
  · simp [MLFitList.append_data, hc]
  · by_cases hc : isinstance d.cls .mlGaussianFit = true
    · simp [MLGaussianFitList.append_data, hc]
    · rw [Bool.not_eq_true] at hc
      simp [MLGaussianFitList.append_data, hc]
  · simp [MLGaussianFitList.append_data, hc]

/-- C10 witness: an `MLFitList` instance itself (dynamic class
`mlFitList`) passes the `isinstance` check of `MLFitList._append_data` and is
appended without error. -/
theorem claim_C10_witness :
    isinstance PyClass.mlFitList PyClass.mlFit = true ∧
    MLFitList.empty.append_data dListInstance 7 =
      .ok ⟨[dListInstance.mu], [dListInstance.sigma2], [dListInstance.ln_lh],
           [dListInstance.err2], [7]⟩ :=
  ⟨claim_C10.2.2.1,
   (claim_C10.1 MLFitList.empty dListInstance 7).2 (by decide)⟩

/-- C1: evaluation at the failing input.  The length invariant does hold
after each successful append (first block), but `MLFitList.__getitem__` at
position 0 returns the WHOLE `err2` backing array and the WHOLE `times` array
instead of the 0-th entries, and `MLGaussianFitList.__getitem__` raises
`AttributeError` (reading the nonexistent `self._times`) on every in-range
index — never the appended record. -/
theorem claim_C1 :
    MLFitList.empty.append_data r1 5 = .ok mlS1 ∧
    mlS1.append_data r2 6 = .ok mlS2 ∧
    mlS2.mu.length = 2 ∧ mlS2.sigma2.length = 2 ∧ mlS2.ln_lh.length = 2 ∧
    mlS2.err2.length = 2 ∧ mlS2.times.length = 2 ∧
    mlS2.getItem 0 =
      .ok (⟨r1.mu, r1.sigma2, r1.ln_lh, [r1.err2, r2.err2]⟩, [5, 6]) ∧
    MLGaussianFitList.empty.append_data g1 5 = .ok gS1 ∧
    gS1.A.length = 1 ∧ gS1.err2.length = 1 ∧ gS1.times.length = 1 ∧
    gS1.getItem 0 = .error .attributeError ∧
    gS1.getItem 2 = .error .indexError :=
  ⟨rfl, rfl, rfl, rfl, rfl, rfl, rfl, rfl, rfl, rfl, rfl, rfl, rfl, rfl⟩

/-- Success of `MLFitList.__init__` is exactly equality of all five component
lengths. -/
theorem mlfitlist_init_ok_iff (mu s l : List Exv) (e : List ErrV)
    (tm : List ℚ) :
    MLFitList.init mu s l e tm = .ok ⟨mu, s, l, e, tm⟩ ↔
      (mu.length = s.length ∧ mu.length = l.length ∧ mu.length = e.length ∧
       mu.length = tm.length) := by
  have hc : (MLFitList.consistent ⟨mu, s, l, e, tm⟩ = true) ↔
      (mu.length = s.length ∧ mu.length = l.length ∧ mu.length = e.length ∧
       mu.length = tm.length) := by
    simp [MLFitList.consistent, Bool.and_eq_true, beq_iff_eq, and_assoc]
  by_cases h : MLFitList.consistent ⟨mu, s, l, e, tm⟩ = true
  · exact iff_of_true (by simp [MLFitList.init, h]) (hc.mp h)
  · refine iff_of_false ?_ fun hr => h (hc.mpr hr)
    intro habs
    simp [MLFitList.init, h] at habs

/-- Failure of `MLFitList.__init__` is exactly a length mismatch, and the
raised error is the length-inconsistency one. -/
theorem mlfitlist_init_error_iff (mu s l : List Exv) (e : List ErrV)
    (tm : List ℚ) :
    MLFitList.init mu s l e tm = .error .inconsistentLengths ↔
      ¬(mu.length = s.length ∧ mu.length = l.length ∧ mu.length = e.length ∧
        mu.length = tm.length) := by
  have hc : (MLFitList.consistent ⟨mu, s, l, e, tm⟩ = true) ↔
      (mu.length = s.length ∧ mu.length = l.length ∧ mu.length = e.length ∧
       mu.length = tm.length) := by
    simp [MLFitList.consistent, Bool.and_eq_true, beq_iff_eq, and_assoc]
  by_cases h : MLFitList.consistent ⟨mu, s, l, e, tm⟩ = true
  · refine iff_of_false ?_ (not_not_intro (hc.mp h))
    intro habs
    simp [MLFitList.init, h] at habs
  · exact iff_of_true (by simp [MLFitList.init, h]) fun hr => h (hc.mpr hr)

/-- Success of `MLGaussianFitList.__init__` is exactly equality of all eight
component lengths. -/
theorem glist_init_ok_iff (A mx my sg : List Exv) (e : List ErrV)
    (ln pr : List Exv) (tm : List ℚ) :
    MLGaussianFitList.init A mx my sg e ln pr tm =
        .ok ⟨A, mx, my, sg, e, ln, pr, tm⟩ ↔
      (A.length = mx.length ∧ A.length = my.length ∧ A.length = sg.length ∧
       A.length = e.length ∧ A.length = ln.length ∧ A.length = pr.length ∧
       A.length = tm.length) := by
  have hc : (MLGaussianFitList.consistent ⟨A, mx, my, sg, e, ln, pr, tm⟩
        = true) ↔
      (A.length = mx.length ∧ A.length = my.length ∧ A.length = sg.length ∧
       A.length = e.length ∧ A.length = ln.length ∧ A.length = pr.length ∧
       A.length = tm.length) := by
    simp [MLGaussianFitList.consistent, Bool.and_eq_true, beq_iff_eq,
      and_assoc]
  by_cases h : MLGaussianFitList.consistent ⟨A, mx, my, sg, e, ln, pr, tm⟩
      = true
  · exact iff_of_true (by simp [MLGaussianFitList.init, h]) (hc.mp h)
  · refine iff_of_false ?_ fun hr => h (hc.mpr hr)
    intro habs
    simp [MLGaussianFitList.init, h] at habs

/-- C2: construction succeeds exactly on equal lengths and raises the
length-inconsistency error otherwise (both containers), and
`MLGaussianFitList.__len__` reports the common length — but
`MLFitList.__len__` raises `AttributeError` unconditionally (the source reads
`len.self.mu`), shown in general and at the concrete failing input. -/
theorem claim_C2 :
    (∀ (mu s l : List Exv) (e : List ErrV) (tm : List ℚ),
      MLFitList.init mu s l e tm = .ok ⟨mu, s, l, e, tm⟩ ↔
        (mu.length = s.length ∧ mu.length = l.length ∧
         mu.length = e.length ∧ mu.length = tm.length)) ∧
    (∀ (mu s l : List Exv) (e : List ErrV) (tm : List ℚ),
      MLFitList.init mu s l e tm = .error .inconsistentLengths ↔
        ¬(mu.length = s.length ∧ mu.length = l.length ∧
          mu.length = e.length ∧ mu.length = tm.length)) ∧
    (∀ (A mx my sg : List Exv) (e : List ErrV) (ln pr : List Exv)
        (tm : List ℚ),
      MLGaussianFitList.init A mx my sg e ln pr tm =
          .ok ⟨A, mx, my, sg, e, ln, pr, tm⟩ ↔
        (A.length = mx.length ∧ A.length = my.length ∧
         A.length = sg.length ∧ A.length = e.length ∧
         A.length = ln.length ∧ A.length = pr.length ∧
         A.length = tm.length)) ∧
    (∀ st : MLGaussianFitList, st.pyLen = .ok st.A.length) ∧
    (∀ st : MLFitList, st.pyLen = .error .attributeError) ∧
    MLFitList.init [Exv.fin 1] [Exv.fin 2] [Exv.fin 3]
      [ErrV.scl (Exv.fin 4)] [5] = .ok mlCons1 ∧
    mlCons1.mu.length = 1 ∧
    mlCons1.pyLen = .error .attributeError ∧
    MLFitList.init [Exv.fin 1] [Exv.fin 2] [Exv.fin 3]
      [ErrV.scl (Exv.fin 4)] [5, 6] = .error .inconsistentLengths ∧
    MLGaussianFitList.init [Exv.fin 1] [Exv.fin 2] [Exv.fin 3] [Exv.fin 4]
      [ErrV.scl (Exv.fin 0)] [Exv.fin 5] [Exv.fin 6] [7] = .ok gCons1 ∧
    gCons1.pyLen = .ok 1 ∧
    MLGaussianFitList.init [Exv.fin 1] [Exv.fin 2] [Exv.fin 3] [Exv.fin 4]
      [ErrV.scl (Exv.fin 0)] [Exv.fin 5] [Exv.fin 6] []
      = .error .inconsistentLengths :=
  ⟨mlfitlist_init_ok_iff, mlfitlist_init_error_iff, glist_init_ok_iff,
   fun _ => rfl, fun _ => rfl, rfl, rfl, rfl, rfl, rfl, rfl, rfl⟩

end Bumps
